import Mathlib

/-!
Shallow embedding of the cute-ledger core (account state machine, command
validator, in-memory transaction processor) and proofs about it.

Correspondence to the Rust source:
* `src/command.rs`   — transaction kinds, command validation (`parse_command`).
* `src/account.rs`   — `Account`, event application, the two handlers.
* `src/processor/in_memory_processor.rs` — `InMemoryTransactionProcessor`.

Machine integers (`u32` transaction ids, `u16` client ids) are modelled as
`Nat`: they are only ever compared for equality, never computed with, so
wrap-around cannot arise.  `rust_decimal::Decimal` (exact fixed-point
decimal arithmetic on the +, -, >= operations the core uses) is modelled as
`Rat`.  The `HashMap`s are modelled as association lists with first-match
lookup, the `HashSet` of disputed transaction ids as a duplicate-free list.
-/

namespace CuteLedger

/-- `pub type TransactionId = u32` (src/account.rs). -/
abbrev TransactionId := Nat

/-- `pub type ClientId = u16` (src/processor/mod.rs). -/
abbrev ClientId := Nat

/-- `rust_decimal::Decimal`: exact decimal arithmetic. -/
abbrev Amount := Rat

/-- `TransactionKind` (src/command.rs): the raw record kind. -/
inductive TransactionKind
  | Deposit
  | Withdrawal
  | Dispute
  | Resolve
  | Chargeback
deriving DecidableEq, Repr

/-- `CreateTransactionAction` (src/command.rs). -/
inductive CreateTransactionAction
  | Deposit
  | Withdraw
deriving DecidableEq, Repr

/-- `ModifyTransactionAction` (src/command.rs). -/
inductive ModifyTransactionAction
  | Dispute
  | Resolve
  | Chargeback
deriving DecidableEq, Repr

/-- `CreateTransactionCommand` (src/command.rs). -/
structure CreateTransactionCommand where
  tx_id : TransactionId
  action : CreateTransactionAction
  amount : Amount
deriving DecidableEq, Repr

/-- `ModifyTransactionCommand` (src/command.rs). -/
structure ModifyTransactionCommand where
  tx_id : TransactionId
  action : ModifyTransactionAction
  amount : Amount
  create_action : CreateTransactionAction
deriving DecidableEq, Repr

/-- `AccountCommandError` (src/command.rs). -/
inductive AccountCommandError
  | AmountRequired (action : CreateTransactionAction)
  | NegativeAmount (action : CreateTransactionAction)
  | ExistingTxRequired (action : ModifyTransactionAction)
  | DuplicateTransaction (action : CreateTransactionAction)
deriving DecidableEq, Repr

/-- `AccountCommand` (src/command.rs). -/
inductive AccountCommand
  | CreateTx (c : CreateTransactionCommand)
  | ModifyTx (c : ModifyTransactionCommand)
deriving DecidableEq, Repr

/-- The registry occupancy seen by the validator: the Rust code passes a
`hash_map::Entry` for the transaction id; its content is the key together
with the stored `CreateTransactionCommand` when occupied (`none` = vacant). -/
abbrev RegistrySlot := Option CreateTransactionCommand

namespace AccountCommand

/-- `AccountCommand::parse_create_command` (src/command.rs, lines 96-117):
occupied slot → `DuplicateTransaction`; vacant with no amount →
`AmountRequired`; vacant with `amount < 0` → `NegativeAmount`; otherwise a
`CreateTransactionCommand` carrying the entry key, action and amount. -/
def parse_create_command (tx_id : TransactionId) (slot : RegistrySlot)
    (amount : Option Amount) (action : CreateTransactionAction) :
    Except AccountCommandError CreateTransactionCommand :=
  match slot with
  | some _ => .error (.DuplicateTransaction action)
  | none =>
    match amount with
    | some a =>
      if 0 ≤ a then
        .ok { tx_id := tx_id, action := action, amount := a }
      else
        .error (.NegativeAmount action)
    | none => .error (.AmountRequired action)

/-- `AccountCommand::parse_modify_command` (src/command.rs, lines 119-132):
vacant slot → `ExistingTxRequired`; otherwise a `ModifyTransactionCommand`
whose amount and create_action are copied from the stored entry. -/
def parse_modify_command (tx_id : TransactionId) (slot : RegistrySlot)
    (action : ModifyTransactionAction) :
    Except AccountCommandError ModifyTransactionCommand :=
  match slot with
  | none => .error (.ExistingTxRequired action)
  | some entry =>
    .ok { tx_id := tx_id, action := action, amount := entry.amount,
          create_action := entry.action }

/-- `AccountCommand::parse_command` (src/command.rs, lines 65-94). -/
def parse_command (tx_id : TransactionId) (slot : RegistrySlot)
    (kind : TransactionKind) (amount : Option Amount) :
    Except AccountCommandError AccountCommand :=
  match kind with
  | .Deposit =>
    (parse_create_command tx_id slot amount .Deposit).map .CreateTx
  | .Withdrawal =>
    (parse_create_command tx_id slot amount .Withdraw).map .CreateTx
  | .Dispute =>
    (parse_modify_command tx_id slot .Dispute).map .ModifyTx
  | .Resolve =>
    (parse_modify_command tx_id slot .Resolve).map .ModifyTx
  | .Chargeback =>
    (parse_modify_command tx_id slot .Chargeback).map .ModifyTx

end AccountCommand

/-- `AccountEventKind` (src/account.rs). -/
inductive AccountEventKind
  | Deposited
  | Withdrawn
  | Disputed
  | Resolved
  | Chargedback
deriving DecidableEq, Repr

/-- `AccountEvent` (src/account.rs). -/
structure AccountEvent where
  transaction_id : TransactionId
  amount : Amount
  kind : AccountEventKind
deriving DecidableEq, Repr

/-- `AccountError` (src/account.rs).  The mismatch variant carries the
attempted action and the rendered dispute-state string, as in the source. -/
inductive AccountError
  | AccountFrozen
  | InsufficientFunds
  | TransactionDisputeStateMismatch (action : ModifyTransactionAction)
      (dispute_state_str : String)
  | DisputeNotSupported
deriving DecidableEq, Repr

/-- `Account` (src/account.rs).  The `HashSet<TransactionId>` of disputed
transactions is a duplicate-free list with `insert`-if-absent semantics. -/
structure Account where
  available : Amount
  held : Amount
  locked : Bool
  txs_under_dispute : List TransactionId
deriving DecidableEq, Repr

namespace Account

/-- `Account::default()`: zero balances, unlocked, empty dispute-set. -/
def default : Account :=
  { available := 0, held := 0, locked := false, txs_under_dispute := [] }

/-- `HashSet::insert`: add the id when absent (sets have no duplicates). -/
def insertDispute (tx : TransactionId) (s : List TransactionId) :
    List TransactionId :=
  if tx ∈ s then s else tx :: s

/-- `HashSet::remove`: drop the id from the set. -/
def removeDispute (tx : TransactionId) (s : List TransactionId) :
    List TransactionId :=
  s.filter (fun t => t ≠ tx)

/-- `Account::total_amount` (src/account.rs, lines 53-55). -/
def total_amount (a : Account) : Amount :=
  a.available + a.held

/-- `Account::apply` (src/account.rs, lines 57-81): unconditional event
application, the sole mutator of an account. -/
def apply (a : Account) (event : AccountEvent) : Account :=
  match event.kind with
  | .Deposited => { a with available := a.available + event.amount }
  | .Withdrawn => { a with available := a.available - event.amount }
  | .Disputed =>
    { a with
      available := a.available - event.amount
      held := a.held + event.amount
      txs_under_dispute := insertDispute event.transaction_id a.txs_under_dispute }
  | .Resolved =>
    { a with
      available := a.available + event.amount
      held := a.held - event.amount
      txs_under_dispute := removeDispute event.transaction_id a.txs_under_dispute }
  | .Chargedback =>
    { a with
      held := a.held - event.amount
      locked := true
      txs_under_dispute := removeDispute event.transaction_id a.txs_under_dispute }

/-- `Account::handle_new_transaction` (src/account.rs, lines 83-109;
called `handle_create_transaction` at its use site in the processor). -/
def handle_new_transaction (a : Account) (command : CreateTransactionCommand) :
    Except AccountError AccountEvent :=
  if a.locked then
    .error .AccountFrozen
  else
    match command.action with
    | .Deposit =>
      .ok { transaction_id := command.tx_id, amount := command.amount,
            kind := .Deposited }
    | .Withdraw =>
      if command.amount ≤ a.available then
        .ok { transaction_id := command.tx_id, amount := command.amount,
              kind := .Withdrawn }
      else
        .error .InsufficientFunds

/-- `Account::handle_modify_transaction` (src/account.rs, lines 111-156). -/
def handle_modify_transaction (a : Account)
    (command : ModifyTransactionCommand) : Except AccountError AccountEvent :=
  if a.locked then
    .error .AccountFrozen
  else
    let amount := command.amount
    let transaction_id := command.tx_id
    let under_dispute := command.tx_id ∈ a.txs_under_dispute
    match command.action, decide under_dispute with
    | .Dispute, false =>
      match command.create_action with
      | .Deposit =>
        .ok { transaction_id := transaction_id, amount := amount,
              kind := .Disputed }
      | .Withdraw => .error .DisputeNotSupported
    | .Resolve, true =>
      .ok { transaction_id := transaction_id, amount := amount,
            kind := .Resolved }
    | .Chargeback, true =>
      .ok { transaction_id := transaction_id, amount := amount,
            kind := .Chargedback }
    | action, u =>
      .error (.TransactionDisputeStateMismatch action
        (if u then "already under dispute" else "not under dispute"))

end Account

/-- First-match lookup in an association list (the observation `HashMap`
offers through `get`). -/
def alLookup {α : Type} (m : List (Nat × α)) (k : Nat) : Option α :=
  (m.find? (fun kv => kv.1 == k)).map (fun kv => kv.2)

/-- `HashMap` insertion: the key is now bound to the new value and every
other key keeps its binding.  (A `HashMap` fixes no iteration order, so any
duplicate-free list realising those two equations models it; this one puts
the fresh binding in front and drops the stale one.) -/
def alInsert {α : Type} (m : List (Nat × α)) (k : Nat) (v : α) :
    List (Nat × α) :=
  (k, v) :: m.filter (fun kv => kv.1 != k)

/-- `TransactionProcessError` (src/processor/mod.rs). -/
inductive TransactionProcessError
  | CommandErr (e : AccountCommandError)
  | AccountErr (e : AccountError)
deriving DecidableEq, Repr

/-- `InMemoryTransactionProcessor` (src/processor/in_memory_processor.rs):
a global registry (`created_tx_list`) keyed by transaction id, and the
per-client account map. -/
structure InMemoryTransactionProcessor where
  created_tx_list : List (TransactionId × CreateTransactionCommand)
  accounts : List (ClientId × Account)
deriving DecidableEq, Repr

namespace InMemoryTransactionProcessor

/-- `InMemoryTransactionProcessor::default()`: both maps empty. -/
def default : InMemoryTransactionProcessor :=
  { created_tx_list := [], accounts := [] }

/-- `InMemoryTransactionProcessor::process_transaction`
(src/processor/in_memory_processor.rs, lines 19-42).  Returns the state
after the record together with the error, if any.  The Rust method mutates
`self` in place; the only mutation that precedes a failure is
`accounts.entry(client_id).or_default()`, which runs once command-level
validation has succeeded and persists even when the account handler then
fails — the model reproduces exactly that. -/
def process_transaction (p : InMemoryTransactionProcessor)
    (tx_id : TransactionId) (client_id : ClientId) (amount : Option Amount)
    (kind : TransactionKind) :
    InMemoryTransactionProcessor × Option TransactionProcessError :=
  let slot := alLookup p.created_tx_list tx_id
  match AccountCommand.parse_command tx_id slot kind amount with
  | .error e => (p, some (.CommandErr e))
  | .ok cmd =>
    let acc := (alLookup p.accounts client_id).getD Account.default
    match cmd with
    | .CreateTx command =>
      match acc.handle_new_transaction command with
      | .error e =>
        ({ p with accounts := alInsert p.accounts client_id acc },
         some (.AccountErr e))
      | .ok evt =>
        ({ created_tx_list := alInsert p.created_tx_list tx_id command,
           accounts := alInsert p.accounts client_id (acc.apply evt) },
         none)
    | .ModifyTx command =>
      match acc.handle_modify_transaction command with
      | .error e =>
        ({ p with accounts := alInsert p.accounts client_id acc },
         some (.AccountErr e))
      | .ok evt =>
        ({ p with accounts := alInsert p.accounts client_id (acc.apply evt) },
         none)

end InMemoryTransactionProcessor

/-- One raw input record as delivered to the processor by `Service::run`
(src/bin_utils/mod.rs): `(tx, client, amount, kind)`. -/
structure TransactionRecord where
  tx : TransactionId
  client : ClientId
  amount : Option Amount
  kind : TransactionKind
deriving DecidableEq, Repr

/-- The state after one record of `Service::run`'s loop: errors are handed
to the error sink and processing continues with the mutated state. -/
def processRecord (p : InMemoryTransactionProcessor)
    (r : TransactionRecord) : InMemoryTransactionProcessor :=
  (p.process_transaction r.tx r.client r.amount r.kind).1

/-- The loop of `Service::run` (src/bin_utils/mod.rs, lines 32-38):
process the records in input order, keeping the state across failures. -/
def processRecords (p : InMemoryTransactionProcessor) :
    List TransactionRecord → InMemoryTransactionProcessor
  | [] => p
  | r :: rs => processRecords (processRecord p r) rs

/-- One row of the final snapshot (`bin_utils::csv_printer::Account`). -/
structure ExportRow where
  client : ClientId
  available : Amount
  held : Amount
  total : Amount
  locked : Bool
deriving DecidableEq, Repr

/-- The export step of `Service::run` (src/bin_utils/mod.rs, lines 40-49):
one row per entry of the processor's account map. -/
def export_accounts (p : InMemoryTransactionProcessor) : List ExportRow :=
  p.accounts.map (fun kv =>
    { client := kv.1, available := kv.2.available, held := kv.2.held,
      total := kv.2.total_amount, locked := kv.2.locked })

/-- The account the processor hands to the handlers: the stored one, or a
fresh default (`accounts.entry(client_id).or_default()`). -/
def accountFor (p : InMemoryTransactionProcessor) (client_id : ClientId) :
    Account :=
  (alLookup p.accounts client_id).getD Account.default

/-! ### Concrete scenarios -/

/-- An account frozen by a chargeback. -/
def lockedAccount : Account :=
  { available := 0, held := 0, locked := true, txs_under_dispute := [] }

/-- A processor state holding one frozen account. -/
def frozenState : InMemoryTransactionProcessor :=
  { created_tx_list := [], accounts := [(1, lockedAccount)] }

/-- An account with transaction 4 currently under dispute. -/
def disputedAccount : Account :=
  { available := 10, held := 5, locked := false, txs_under_dispute := [4] }

/-- A registry entry as stored after an accepted deposit. -/
def entry0 : CreateTransactionCommand :=
  { tx_id := 9, action := .Deposit, amount := 3 }

/-- A processor state whose registry already holds transaction 1. -/
def seededRegistry : InMemoryTransactionProcessor :=
  { created_tx_list := [(1, { tx_id := 1, action := .Deposit, amount := 10 })],
    accounts := [] }

/-- Run: deposit 10 then withdraw 5 for client 1 (available ends at 5). -/
def depositWithdrawRun : InMemoryTransactionProcessor :=
  processRecords InMemoryTransactionProcessor.default
    [{ tx := 1, client := 1, amount := some 10, kind := .Deposit },
     { tx := 2, client := 1, amount := some 5, kind := .Withdrawal }]

/-- Run: client 1 deposits 10 as tx 1, client 2 deposits 7 as tx 2. -/
def twoClientRun : InMemoryTransactionProcessor :=
  processRecords InMemoryTransactionProcessor.default
    [{ tx := 1, client := 1, amount := some 10, kind := .Deposit },
     { tx := 2, client := 2, amount := some 7, kind := .Deposit }]

/-- Run: deposit, dispute and chargeback of tx 1 for client 1, leaving the
account frozen. -/
def chargebackRun : InMemoryTransactionProcessor :=
  processRecords InMemoryTransactionProcessor.default
    [{ tx := 1, client := 1, amount := some 10, kind := .Deposit },
     { tx := 1, client := 1, amount := none, kind := .Dispute },
     { tx := 1, client := 1, amount := none, kind := .Chargeback }]

/-! ### Map lemmas -/

theorem alLookup_alInsert_self {α : Type} (m : List (Nat × α)) (k : Nat)
    (v : α) : alLookup (alInsert m k v) k = some v := by
  simp [alLookup, alInsert]

theorem find?_filter_of_ne {α : Type} (m : List (Nat × α)) (k c : Nat)
    (h : c ≠ k) :
    (m.filter (fun kv => kv.1 != k)).find? (fun kv => kv.1 == c) =
      m.find? (fun kv => kv.1 == c) := by
  have hkc : (k == c) = false := beq_eq_false_iff_ne.mpr (Ne.symm h)
  induction m with
  | nil => rfl
  | cons kv rest ih =>
    by_cases hk : kv.1 = k
    · simp [List.filter_cons, hk, List.find?_cons, hkc, ih]
    · by_cases hc : kv.1 = c
      · have h1 : (kv.1 != k) = true := by simp [hk]
        rw [List.filter_cons, if_pos h1]
        simp [List.find?_cons, hc]
      · have h1 : (kv.1 != k) = true := by simp [hk]
        have h2 : (kv.1 == c) = false := beq_eq_false_iff_ne.mpr hc
        simp [List.filter_cons, h1, List.find?_cons, h2, ih]

theorem alLookup_alInsert {α : Type} (m : List (Nat × α)) (k c : Nat) (v : α) :
    alLookup (alInsert m k v) c = if c = k then some v else alLookup m c := by
  by_cases h : c = k
  · subst h
    simp [alLookup_alInsert_self]
  · have hkc : (k == c) = false := beq_eq_false_iff_ne.mpr (Ne.symm h)
    simp [alLookup, alInsert, h, List.find?_cons, hkc,
      find?_filter_of_ne m k c h]

theorem alLookup_mem {α : Type} {m : List (Nat × α)} {k : Nat} {v : α}
    (h : alLookup m k = some v) : (k, v) ∈ m := by
  unfold alLookup at h
  obtain ⟨kv, hfind, hv⟩ := Option.map_eq_some'.mp h
  have hmem := List.mem_of_find?_eq_some hfind
  have hkey : kv.1 = k := by
    have := List.find?_some hfind
    simpa using this
  have : kv = (k, v) := by
    cases kv
    simp_all
  rwa [this] at hmem

/-- A client found in the account map yields a row of the final export. -/
theorem export_accounts_mem {p : InMemoryTransactionProcessor} {k : ClientId}
    {v : Account} (h : alLookup p.accounts k = some v) :
    ({ client := k, available := v.available, held := v.held,
       total := v.total_amount, locked := v.locked } : ExportRow)
      ∈ export_accounts p := by
  have := alLookup_mem h
  exact List.mem_map.mpr ⟨(k, v), this, rfl⟩

/-! ### Shape of `process_transaction` -/

/-- Exhaustive case analysis of one `process_transaction` call: command
validation fails, or a create/modify command is handled with success or
failure, each case recording the exact successor state and error. -/
theorem process_transaction_cases (p : InMemoryTransactionProcessor)
    (tx_id : TransactionId) (client_id : ClientId) (amount : Option Amount)
    (kind : TransactionKind) :
    (∃ e, AccountCommand.parse_command tx_id (alLookup p.created_tx_list tx_id)
        kind amount = .error e ∧
      p.process_transaction tx_id client_id amount kind =
        (p, some (.CommandErr e)))
    ∨ (∃ command evt,
      AccountCommand.parse_command tx_id (alLookup p.created_tx_list tx_id)
        kind amount = .ok (.CreateTx command) ∧
      (accountFor p client_id).handle_new_transaction command = .ok evt ∧
      p.process_transaction tx_id client_id amount kind =
        ({ created_tx_list := alInsert p.created_tx_list tx_id command,
           accounts := alInsert p.accounts client_id
             ((accountFor p client_id).apply evt) }, none))
    ∨ (∃ command e,
      AccountCommand.parse_command tx_id (alLookup p.created_tx_list tx_id)
        kind amount = .ok (.CreateTx command) ∧
      (accountFor p client_id).handle_new_transaction command = .error e ∧
      p.process_transaction tx_id client_id amount kind =
        ({ p with accounts := alInsert p.accounts client_id (accountFor p client_id) }, some (.AccountErr e)))
    ∨ (∃ command evt,
      AccountCommand.parse_command tx_id (alLookup p.created_tx_list tx_id)
        kind amount = .ok (.ModifyTx command) ∧
      (accountFor p client_id).handle_modify_transaction command = .ok evt ∧
      p.process_transaction tx_id client_id amount kind =
        ({ p with accounts := alInsert p.accounts client_id ((accountFor p client_id).apply evt) }, none))
    ∨ (∃ command e,
      AccountCommand.parse_command tx_id (alLookup p.created_tx_list tx_id)
        kind amount = .ok (.ModifyTx command) ∧
      (accountFor p client_id).handle_modify_transaction command = .error e ∧
      p.process_transaction tx_id client_id amount kind =
        ({ p with accounts := alInsert p.accounts client_id (accountFor p client_id) }, some (.AccountErr e))) := by
  cases hp : AccountCommand.parse_command tx_id
      (alLookup p.created_tx_list tx_id) kind amount with
  | error e =>
    exact Or.inl ⟨e, rfl, by
      simp [InMemoryTransactionProcessor.process_transaction, hp]⟩
  | ok cmd =>
    cases cmd with
    | CreateTx command =>
      cases hh : (accountFor p client_id).handle_new_transaction command with
      | ok evt =>
        refine Or.inr (Or.inl ⟨command, evt, rfl, hh, ?_⟩)
        simp [InMemoryTransactionProcessor.process_transaction, hp,
          accountFor] at hh ⊢
        simp [hh]
      | error e =>
        refine Or.inr (Or.inr (Or.inl ⟨command, e, rfl, hh, ?_⟩))
        simp [InMemoryTransactionProcessor.process_transaction, hp,
          accountFor] at hh ⊢
        simp [hh]
    | ModifyTx command =>
      cases hh : (accountFor p client_id).handle_modify_transaction command with
      | ok evt =>
        refine Or.inr (Or.inr (Or.inr (Or.inl ⟨command, evt, rfl, hh, ?_⟩)))
        simp [InMemoryTransactionProcessor.process_transaction, hp,
          accountFor] at hh ⊢
        simp [hh]
      | error e =>
        refine Or.inr (Or.inr (Or.inr (Or.inr ⟨command, e, rfl, hh, ?_⟩)))
        simp [InMemoryTransactionProcessor.process_transaction, hp,
          accountFor] at hh ⊢
        simp [hh]

/-- A validated creation command presupposes a vacant registry slot. -/
theorem parse_command_createTx_vacant {tx_id : TransactionId}
    {slot : RegistrySlot} {kind : TransactionKind} {amount : Option Amount}
    {command : CreateTransactionCommand}
    (h : AccountCommand.parse_command tx_id slot kind amount =
      .ok (.CreateTx command)) : slot = none := by
  cases kind <;> cases slot <;>
    simp_all [AccountCommand.parse_command, AccountCommand.parse_create_command,
      AccountCommand.parse_modify_command, Except.map]

/-- On a failed record everything already stored is untouched: the registry
is literally unchanged and every stored account keeps its value. -/
theorem process_err_preserves (p : InMemoryTransactionProcessor)
    (tx_id : TransactionId) (client_id : ClientId) (amount : Option Amount)
    (kind : TransactionKind)
    (herr : (p.process_transaction tx_id client_id amount kind).2.isSome = true) :
    (p.process_transaction tx_id client_id amount kind).1.created_tx_list =
      p.created_tx_list ∧
    ∀ c acc, alLookup p.accounts c = some acc →
      alLookup (p.process_transaction tx_id client_id amount kind).1.accounts c =
        some acc := by
  rcases process_transaction_cases p tx_id client_id amount kind with
    ⟨e, _, heq⟩ | ⟨command, evt, _, _, heq⟩ | ⟨command, e, _, _, heq⟩ |
    ⟨command, evt, _, _, heq⟩ | ⟨command, e, _, _, heq⟩
  · rw [heq]
    exact ⟨rfl, fun c acc h => h⟩
  · rw [heq] at herr
    simp at herr
  · rw [heq]
    refine ⟨rfl, fun c acc h => ?_⟩
    rw [alLookup_alInsert]
    by_cases hc : c = client_id
    · subst hc
      simp [accountFor, h]
    · simp [hc, h]
  · rw [heq] at herr
    simp at herr
  · rw [heq]
    refine ⟨rfl, fun c acc h => ?_⟩
    rw [alLookup_alInsert]
    by_cases hc : c = client_id
    · subst hc
      simp [accountFor, h]
    · simp [hc, h]

/-- The registry never loses an entry across a record. -/
theorem process_registry_mono (p : InMemoryTransactionProcessor)
    (tx_id : TransactionId) (client_id : ClientId) (amount : Option Amount)
    (kind : TransactionKind) {T : TransactionId} {e : CreateTransactionCommand}
    (h : alLookup p.created_tx_list T = some e) :
    alLookup (p.process_transaction tx_id client_id amount kind).1.created_tx_list
      T = some e := by
  rcases process_transaction_cases p tx_id client_id amount kind with
    ⟨e2, _, heq⟩ | ⟨command, evt, hp, _, heq⟩ | ⟨command, e2, _, _, heq⟩ |
    ⟨command, evt, _, _, heq⟩ | ⟨command, e2, _, _, heq⟩ <;> rw [heq]
  · exact h
  · have hv := parse_command_createTx_vacant hp
    have hne : T ≠ tx_id := fun hT => by rw [hT, hv] at h; cases h
    simpa [alLookup_alInsert, hne] using h
  · exact h
  · exact h
  · exact h

/-- The registry never loses an entry across a whole run. -/
theorem processRecords_registry_mono (rs : List TransactionRecord) :
    ∀ (p : InMemoryTransactionProcessor) {T : TransactionId}
      {e : CreateTransactionCommand},
      alLookup p.created_tx_list T = some e →
      alLookup (processRecords p rs).created_tx_list T = some e := by
  induction rs with
  | nil => exact fun p _ _ h => h
  | cons r rs ih =>
    intro p T e h
    exact ih _ (process_registry_mono p r.tx r.client r.amount r.kind h)

/-- The account map never loses a client across a record. -/
theorem process_accounts_mono (p : InMemoryTransactionProcessor)
    (tx_id : TransactionId) (client_id : ClientId) (amount : Option Amount)
    (kind : TransactionKind) {c : ClientId} {acc : Account}
    (h : alLookup p.accounts c = some acc) :
    ∃ acc2, alLookup (p.process_transaction tx_id client_id amount kind).1.accounts
      c = some acc2 := by
  rcases process_transaction_cases p tx_id client_id amount kind with
    ⟨e2, _, heq⟩ | ⟨command, evt, _, _, heq⟩ | ⟨command, e2, _, _, heq⟩ |
    ⟨command, evt, _, _, heq⟩ | ⟨command, e2, _, _, heq⟩ <;> rw [heq]
  · exact ⟨acc, h⟩
  all_goals
    by_cases hc : c = client_id
    · subst hc
      exact ⟨_, alLookup_alInsert_self _ _ _⟩
    · exact ⟨acc, by simp [alLookup_alInsert, hc, h]⟩

/-- The account map never loses a client across a whole run. -/
theorem processRecords_accounts_mono (rs : List TransactionRecord) :
    ∀ (p : InMemoryTransactionProcessor) {c : ClientId} {acc : Account},
      alLookup p.accounts c = some acc →
      ∃ acc2, alLookup (processRecords p rs).accounts c = some acc2 := by
  induction rs with
  | nil => exact fun p _ _ h => ⟨_, h⟩
  | cons r rs ih =>
    intro p c acc h
    obtain ⟨acc2, h2⟩ := process_accounts_mono p r.tx r.client r.amount r.kind h
    exact ih _ h2

/-- A validated creation command can only come from a creation kind. -/
theorem parse_command_createTx_kind {tx_id : TransactionId}
    {slot : RegistrySlot} {kind : TransactionKind} {amount : Option Amount}
    {command : CreateTransactionCommand}
    (h : AccountCommand.parse_command tx_id slot kind amount =
      .ok (.CreateTx command)) :
    kind = .Deposit ∨ kind = .Withdrawal := by
  cases kind <;> cases slot <;>
    simp_all [AccountCommand.parse_command, AccountCommand.parse_modify_command,
      Except.map]

/-- A frozen account rejects every creation command. -/
theorem handle_new_frozen (a : Account) (command : CreateTransactionCommand)
    (hl : a.locked = true) :
    a.handle_new_transaction command = .error .AccountFrozen := by
  simp [Account.handle_new_transaction, hl]

/-- A frozen account rejects every modification command. -/
theorem handle_modify_frozen (a : Account) (command : ModifyTransactionCommand)
    (hl : a.locked = true) :
    a.handle_modify_transaction command = .error .AccountFrozen := by
  simp [Account.handle_modify_transaction, hl]

/-! ### Claims -/

/-- Claim C3: for a creation record, validation fails `DuplicateTransaction`
when the tx id already occupies the registry (regardless of the amount),
otherwise `AmountRequired` when the amount is absent, otherwise
`NegativeAmount` when the amount is strictly negative, and otherwise
succeeds with a `CreateTransactionCommand` carrying tx id, action and the
amount — so an amount of exactly zero is accepted. -/
theorem parse_create_checks_in_order (tx_id : TransactionId)
    (slot : RegistrySlot) (amount : Option Amount)
    (action : CreateTransactionAction) :
    (∀ e, slot = some e →
      AccountCommand.parse_create_command tx_id slot amount action =
        .error (.DuplicateTransaction action))
    ∧ (slot = none → amount = none →
      AccountCommand.parse_create_command tx_id slot amount action =
        .error (.AmountRequired action))
    ∧ (∀ a, slot = none → amount = some a → a < 0 →
      AccountCommand.parse_create_command tx_id slot amount action =
        .error (.NegativeAmount action))
    ∧ (∀ a, slot = none → amount = some a → 0 ≤ a →
      AccountCommand.parse_create_command tx_id slot amount action =
        .ok { tx_id := tx_id, action := action, amount := a }) := by
  refine ⟨?_, ?_, ?_, ?_⟩
  · intro e he
    subst he
    rfl
  · intro h1 h2
    subst h1
    subst h2
    rfl
  · intro a h1 h2 hneg
    subst h1
    subst h2
    simp [AccountCommand.parse_create_command, not_le.mpr hneg]
  · intro a h1 h2 hpos
    subst h1
    subst h2
    simp [AccountCommand.parse_create_command, hpos]

/-- Witness for C3: a duplicate tx id with a missing amount still yields
`DuplicateTransaction`, and an amount of exactly zero is accepted. -/
theorem parse_create_checks_in_order_witness :
    AccountCommand.parse_create_command 9 (some entry0) none .Deposit =
      .error (.DuplicateTransaction .Deposit)
    ∧ AccountCommand.parse_create_command 9 none (some 0) .Deposit =
      .ok { tx_id := 9, action := .Deposit, amount := 0 } :=
  ⟨(parse_create_checks_in_order 9 (some entry0) none .Deposit).1 entry0 rfl,
   (parse_create_checks_in_order 9 none (some 0) .Deposit).2.2.2 0 rfl rfl
     le_rfl⟩

/-- Claim C4: for a modification record, validation fails
`ExistingTxRequired` when the tx id is absent from the registry, otherwise
succeeds with a `ModifyTransactionCommand` whose amount and create_action
are copied from the stored registry entry; the record's own amount field is
ignored for modify kinds, so any two amounts give identical outcomes. -/
theorem parse_modify_copies_registry_entry (tx_id : TransactionId)
    (slot : RegistrySlot) (action : ModifyTransactionAction) :
    (slot = none →
      AccountCommand.parse_modify_command tx_id slot action =
        .error (.ExistingTxRequired action))
    ∧ (∀ e, slot = some e →
      AccountCommand.parse_modify_command tx_id slot action =
        .ok { tx_id := tx_id, action := action, amount := e.amount,
              create_action := e.action })
    ∧ (∀ kind, (kind = .Dispute ∨ kind = .Resolve ∨ kind = .Chargeback) →
      ∀ amount1 amount2 : Option Amount,
        AccountCommand.parse_command tx_id slot kind amount1 =
          AccountCommand.parse_command tx_id slot kind amount2) := by
  refine ⟨?_, ?_, ?_⟩
  · intro h
    subst h
    rfl
  · intro e h
    subst h
    rfl
  · rintro kind (rfl | rfl | rfl) amount1 amount2 <;> rfl

/-- Witness for C4: with tx 9 stored as a 3-unit deposit, a dispute copies
amount 3 and create_action Deposit from the registry, and parsing a dispute
with amount 99 equals parsing it with no amount at all. -/
theorem parse_modify_copies_registry_entry_witness :
    AccountCommand.parse_modify_command 9 (some entry0) .Dispute =
      .ok { tx_id := 9, action := .Dispute, amount := 3,
            create_action := .Deposit }
    ∧ AccountCommand.parse_command 9 (some entry0) .Dispute (some 99) =
      AccountCommand.parse_command 9 (some entry0) .Dispute none :=
  ⟨(parse_modify_copies_registry_entry 9 (some entry0) .Dispute).2.1 entry0 rfl,
   (parse_modify_copies_registry_entry 9 (some entry0) .Dispute).2.2 .Dispute
     (Or.inl rfl) (some 99) none⟩

/-- Claim C5: on an unlocked account a validated Deposit always succeeds
with a Deposited event; a validated Withdraw succeeds with a Withdrawn
event when `available >= amount` and fails `InsufficientFunds` otherwise. -/
theorem handle_create_deposit_withdraw (a : Account) (hl : a.locked = false)
    (command : CreateTransactionCommand) :
    (command.action = .Deposit →
      a.handle_new_transaction command =
        .ok { transaction_id := command.tx_id, amount := command.amount,
              kind := .Deposited })
    ∧ (command.action = .Withdraw → command.amount ≤ a.available →
      a.handle_new_transaction command =
        .ok { transaction_id := command.tx_id, amount := command.amount,
              kind := .Withdrawn })
    ∧ (command.action = .Withdraw → ¬ command.amount ≤ a.available →
      a.handle_new_transaction command = .error .InsufficientFunds) := by
  refine ⟨?_, ?_, ?_⟩
  · intro hd
    simp [Account.handle_new_transaction, hl, hd]
  · intro hw hge
    simp [Account.handle_new_transaction, hl, hw, hge]
  · intro hw hlt
    simp [Account.handle_new_transaction, hl, hw, hlt]

/-- Witness for C5: on a fresh account a 2-unit deposit succeeds, a 0-unit
withdrawal succeeds, and a 1-unit withdrawal fails `InsufficientFunds`. -/
theorem handle_create_deposit_withdraw_witness :
    Account.default.handle_new_transaction
      { tx_id := 1, action := .Deposit, amount := 2 } =
      .ok { transaction_id := 1, amount := 2, kind := .Deposited }
    ∧ Account.default.handle_new_transaction
      { tx_id := 2, action := .Withdraw, amount := 0 } =
      .ok { transaction_id := 2, amount := 0, kind := .Withdrawn }
    ∧ Account.default.handle_new_transaction
      { tx_id := 3, action := .Withdraw, amount := 1 } =
      .error .InsufficientFunds :=
  ⟨(handle_create_deposit_withdraw Account.default rfl _).1 rfl,
   (handle_create_deposit_withdraw Account.default rfl _).2.1 rfl le_rfl,
   (handle_create_deposit_withdraw Account.default rfl _).2.2 rfl
     (not_le.mpr one_pos)⟩

/-- Counterexample to C7 as stated: the `DisputeNotSupported` outcome is not
unconditional.  A frozen account answers `AccountFrozen` to a dispute of a
withdrawal, and an account that already has the tx under dispute answers
`TransactionDisputeStateMismatch`. -/
theorem dispute_withdraw_counterexample :
    lockedAccount.handle_modify_transaction
      { tx_id := 1, action := .Dispute, amount := 5,
        create_action := .Withdraw } = .error .AccountFrozen
    ∧ lockedAccount.handle_modify_transaction
      { tx_id := 1, action := .Dispute, amount := 5,
        create_action := .Withdraw } ≠ .error .DisputeNotSupported
    ∧ disputedAccount.handle_modify_transaction
      { tx_id := 4, action := .Dispute, amount := 5,
        create_action := .Withdraw } =
      .error (.TransactionDisputeStateMismatch .Dispute
        "already under dispute")
    ∧ disputedAccount.handle_modify_transaction
      { tx_id := 4, action := .Dispute, amount := 5,
        create_action := .Withdraw } ≠ .error .DisputeNotSupported := by
  refine ⟨rfl, ?_, rfl, ?_⟩
  · intro h
    simp [Account.handle_modify_transaction, lockedAccount] at h
  · intro h
    simp [Account.handle_modify_transaction, disputedAccount] at h

/-- Claim C7 (amended): on an account that is not locked, a validated
Dispute command whose create_action is Withdraw and whose tx id is not
currently under dispute fails `DisputeNotSupported`, regardless of the
account's balances. -/
theorem dispute_withdraw_not_supported (a : Account)
    (command : ModifyTransactionCommand) (hl : a.locked = false)
    (ha : command.action = .Dispute) (hc : command.create_action = .Withdraw)
    (hd : command.tx_id ∉ a.txs_under_dispute) :
    a.handle_modify_transaction command = .error .DisputeNotSupported := by
  simp [Account.handle_modify_transaction, hl, ha, hc, hd]

/-- Witness for C7 (amended): a fresh account rejects a dispute of a
withdrawal with `DisputeNotSupported`. -/
theorem dispute_withdraw_not_supported_witness :
    Account.default.handle_modify_transaction
      { tx_id := 3, action := .Dispute, amount := 5,
        create_action := .Withdraw } = .error .DisputeNotSupported :=
  dispute_withdraw_not_supported Account.default
    { tx_id := 3, action := .Dispute, amount := 5, create_action := .Withdraw }
    rfl rfl rfl (by simp [Account.default])

/-- Claim C1: a record whose processing returns an error leaves the
registry literally unchanged and every account already stored keeps its
exact value; and the registry gains an entry only when the whole chain
succeeds and only for a creation kind. -/
theorem process_transaction_atomic (p : InMemoryTransactionProcessor)
    (tx_id : TransactionId) (client_id : ClientId) (amount : Option Amount)
    (kind : TransactionKind) :
    ((p.process_transaction tx_id client_id amount kind).2.isSome = true →
      (p.process_transaction tx_id client_id amount kind).1.created_tx_list =
        p.created_tx_list ∧
      ∀ c acc, alLookup p.accounts c = some acc →
        alLookup (p.process_transaction tx_id client_id amount kind).1.accounts
          c = some acc)
    ∧ ((p.process_transaction tx_id client_id amount kind).1.created_tx_list ≠
        p.created_tx_list →
      (p.process_transaction tx_id client_id amount kind).2 = none ∧
      (kind = .Deposit ∨ kind = .Withdrawal)) := by
  refine ⟨process_err_preserves p tx_id client_id amount kind, ?_⟩
  intro hne
  rcases process_transaction_cases p tx_id client_id amount kind with
    ⟨e, hp, heq⟩ | ⟨command, evt, hp, hh, heq⟩ | ⟨command, e, hp, hh, heq⟩ |
    ⟨command, evt, hp, hh, heq⟩ | ⟨command, e, hp, hh, heq⟩
  · rw [heq] at hne
    exact absurd rfl hne
  · rw [heq]
    exact ⟨rfl, parse_command_createTx_kind hp⟩
  · rw [heq] at hne
    exact absurd rfl hne
  · rw [heq] at hne
    exact absurd rfl hne
  · rw [heq] at hne
    exact absurd rfl hne

/-- Witness for C1: the failing dispute of a never-created transaction on
the empty processor state leaves the registry unchanged. -/
theorem process_transaction_atomic_witness :
    (InMemoryTransactionProcessor.default.process_transaction 1 1 none
      .Dispute).1.created_tx_list =
      InMemoryTransactionProcessor.default.created_tx_list :=
  ((process_transaction_atomic InMemoryTransactionProcessor.default 1 1 none
    .Dispute).1 rfl).1

/-- Counterexample to C2 as stated: after a chargeback has frozen client
1's account, a dispute naming a never-created transaction still fails with
the command-level error `ExistingTxRequired`, not with `AccountFrozen`. -/
theorem frozen_account_counterexample :
    (alLookup chargebackRun.accounts 1).map Account.locked = some true
    ∧ (chargebackRun.process_transaction 2 1 none .Dispute).2 =
      some (.CommandErr (.ExistingTxRequired .Dispute))
    ∧ (chargebackRun.process_transaction 2 1 none .Dispute).2 ≠
      some (.AccountErr .AccountFrozen) := by
  have h2 : (chargebackRun.process_transaction 2 1 none .Dispute).2 =
      some (.CommandErr (.ExistingTxRequired .Dispute)) := rfl
  refine ⟨rfl, h2, ?_⟩
  rw [h2]
  simp

/-- Claim C2 (amended): once an account is locked, every later command
addressed to that client fails; the ones that pass command-level
validation fail with `AccountFrozen` (a command-level rejection keeps its
command-level error). -/
theorem frozen_account_rejects_all (p : InMemoryTransactionProcessor)
    (client_id : ClientId) (a : Account)
    (hacc : alLookup p.accounts client_id = some a) (hl : a.locked = true)
    (tx_id : TransactionId) (amount : Option Amount)
    (kind : TransactionKind) :
    (p.process_transaction tx_id client_id amount kind).2.isSome = true
    ∧ (∀ cmd, AccountCommand.parse_command tx_id
        (alLookup p.created_tx_list tx_id) kind amount = .ok cmd →
      (p.process_transaction tx_id client_id amount kind).2 =
        some (.AccountErr .AccountFrozen)) := by
  have haf : accountFor p client_id = a := by simp [accountFor, hacc]
  rcases process_transaction_cases p tx_id client_id amount kind with
    ⟨e, hp, heq⟩ | ⟨command, evt, hp, hh, heq⟩ | ⟨command, e, hp, hh, heq⟩ |
    ⟨command, evt, hp, hh, heq⟩ | ⟨command, e, hp, hh, heq⟩
  · refine ⟨by rw [heq]; rfl, ?_⟩
    intro cmd hcmd
    rw [hp] at hcmd
    cases hcmd
  · rw [haf, handle_new_frozen a command hl] at hh
    cases hh
  · rw [haf, handle_new_frozen a command hl] at hh
    injection hh with he
    subst he
    exact ⟨by rw [heq]; rfl, fun cmd hcmd => by rw [heq]⟩
  · rw [haf, handle_modify_frozen a command hl] at hh
    cases hh
  · rw [haf, handle_modify_frozen a command hl] at hh
    injection hh with he
    subst he
    exact ⟨by rw [heq]; rfl, fun cmd hcmd => by rw [heq]⟩

/-- Witness for C2 (amended): a frozen account turns a well-formed deposit
into `AccountFrozen`. -/
theorem frozen_account_rejects_all_witness :
    (frozenState.process_transaction 2 1 (some 1) .Deposit).2.isSome = true
    ∧ (frozenState.process_transaction 2 1 (some 1) .Deposit).2 =
      some (.AccountErr .AccountFrozen) :=
  ⟨(frozen_account_rejects_all frozenState 1 lockedAccount rfl rfl 2 (some 1)
      .Deposit).1,
   (frozen_account_rejects_all frozenState 1 lockedAccount rfl rfl 2 (some 1)
      .Deposit).2 (.CreateTx { tx_id := 2, action := .Deposit, amount := 1 })
      rfl⟩

/-- Claim C6: a transaction id already committed to the registry stays
there across any later records, and any later creation record reusing it —
for any client — fails `DuplicateTransaction`. -/
theorem registry_globally_unique (p : InMemoryTransactionProcessor)
    (T : TransactionId) (entry : CreateTransactionCommand)
    (h : alLookup p.created_tx_list T = some entry)
    (rs : List TransactionRecord) (client_id : ClientId)
    (amount : Option Amount) :
    (∃ entry2, alLookup (processRecords p rs).created_tx_list T = some entry2)
    ∧ ((processRecords p rs).process_transaction T client_id amount
        .Deposit).2 = some (.CommandErr (.DuplicateTransaction .Deposit))
    ∧ ((processRecords p rs).process_transaction T client_id amount
        .Withdrawal).2 =
      some (.CommandErr (.DuplicateTransaction .Withdraw)) := by
  have h2 := processRecords_registry_mono rs p h
  refine ⟨⟨entry, h2⟩, ?_, ?_⟩ <;>
    simp [InMemoryTransactionProcessor.process_transaction,
      AccountCommand.parse_command, AccountCommand.parse_create_command, h2,
      Except.map]

/-- Witness for C6: with tx 1 committed by client 1's deposit, a deposit
reusing tx 1 for client 2 fails `DuplicateTransaction`. -/
theorem registry_globally_unique_witness :
    (∃ entry2, alLookup (processRecords seededRegistry []).created_tx_list 1 =
      some entry2)
    ∧ ((processRecords seededRegistry []).process_transaction 1 2 (some 5)
        .Deposit).2 = some (.CommandErr (.DuplicateTransaction .Deposit))
    ∧ ((processRecords seededRegistry []).process_transaction 1 2 (some 5)
        .Withdrawal).2 =
      some (.CommandErr (.DuplicateTransaction .Withdraw)) :=
  registry_globally_unique seededRegistry 1
    { tx_id := 1, action := .Deposit, amount := 10 } rfl [] 2 (some 5)

/-- Claim C8: in the reachable state where client 1 deposited 10 (tx 1) and
withdrew 5, disputing tx 1 — whose amount 10 exceeds the available 5 —
succeeds, and afterwards the available balance is strictly negative: the
dispute handler performs no available-balance check. -/
theorem dispute_can_overdraw_available :
    (alLookup depositWithdrawRun.accounts 1).map Account.available = some 5
    ∧ (alLookup depositWithdrawRun.created_tx_list 1).map
        CreateTransactionCommand.amount = some 10
    ∧ (depositWithdrawRun.process_transaction 1 1 none .Dispute).2 = none
    ∧ (∃ v, (alLookup (depositWithdrawRun.process_transaction 1 1 none
          .Dispute).1.accounts 1).map Account.available = some v ∧ v < 0) := by
  refine ⟨?_, ?_, ?_, ⟨-5, ?_, by norm_num⟩⟩ <;>
    norm_num [depositWithdrawRun, processRecords, processRecord,
      InMemoryTransactionProcessor.default,
      InMemoryTransactionProcessor.process_transaction,
      AccountCommand.parse_command, AccountCommand.parse_create_command,
      AccountCommand.parse_modify_command, alLookup, alInsert,
      Account.default, Account.handle_new_transaction,
      Account.handle_modify_transaction, Account.apply, Account.insertDispute,
      Account.removeDispute, Except.map]

/-- Claim C9: with tx 1 created by client 1's deposit of 10, the dispute
record naming client 2 and tx 1 passes registry validation (no client
check) and is applied to client 2's account, moving 10 out of client 2's
available balance into client 2's held balance, while client 1's account is
untouched. -/
theorem modify_command_ignores_creating_client :
    alLookup twoClientRun.accounts 2 =
      some { available := 7, held := 0, locked := false,
             txs_under_dispute := [] }
    ∧ (twoClientRun.process_transaction 1 2 none .Dispute).2 = none
    ∧ alLookup (twoClientRun.process_transaction 1 2 none .Dispute).1.accounts
        2 = some { available := -3, held := 10, locked := false,
                   txs_under_dispute := [1] }
    ∧ alLookup (twoClientRun.process_transaction 1 2 none .Dispute).1.accounts
        1 = some { available := 10, held := 0, locked := false,
                   txs_under_dispute := [] } := by
  refine ⟨?_, ?_, ?_, ?_⟩ <;>
    norm_num [twoClientRun, processRecords, processRecord,
      InMemoryTransactionProcessor.default,
      InMemoryTransactionProcessor.process_transaction,
      AccountCommand.parse_command, AccountCommand.parse_create_command,
      AccountCommand.parse_modify_command, alLookup, alInsert,
      Account.default, Account.handle_new_transaction,
      Account.handle_modify_transaction, Account.apply, Account.insertDispute,
      Account.removeDispute, Except.map]

/-- Claim C10: a record that fails command-level validation leaves the
whole state (account map included) untouched; a record that passes
validation but fails account-level handling still leaves the lazily
created fresh default account for its client in the map, where it stays
for the rest of the run and hence yields a row of the final export. -/
theorem fresh_account_persists_on_account_error
    (p : InMemoryTransactionProcessor) (tx_id : TransactionId)
    (client_id : ClientId) (amount : Option Amount)
    (kind : TransactionKind) :
    (∀ e, AccountCommand.parse_command tx_id (alLookup p.created_tx_list tx_id)
        kind amount = .error e →
      (p.process_transaction tx_id client_id amount kind).1 = p)
    ∧ (∀ cmd, AccountCommand.parse_command tx_id
        (alLookup p.created_tx_list tx_id) kind amount = .ok cmd →
      (p.process_transaction tx_id client_id amount kind).2.isSome = true →
      alLookup p.accounts client_id = none →
      alLookup (p.process_transaction tx_id client_id amount kind).1.accounts
          client_id = some Account.default
      ∧ ∀ rs, ∃ acc2,
          alLookup (processRecords
            (p.process_transaction tx_id client_id amount kind).1 rs).accounts
            client_id = some acc2
          ∧ ({ client := client_id, available := acc2.available,
               held := acc2.held, total := acc2.total_amount,
               locked := acc2.locked } : ExportRow) ∈ export_accounts
              (processRecords
                (p.process_transaction tx_id client_id amount kind).1 rs)) := by
  rcases process_transaction_cases p tx_id client_id amount kind with
    ⟨e, hp, heq⟩ | ⟨command, evt, hp, hh, heq⟩ | ⟨command, e, hp, hh, heq⟩ |
    ⟨command, evt, hp, hh, heq⟩ | ⟨command, e, hp, hh, heq⟩
  · constructor
    · intro e2 _
      rw [heq]
    · intro cmd hcmd
      rw [hp] at hcmd
      cases hcmd
  · constructor
    · intro e2 he2
      rw [hp] at he2
      cases he2
    · intro cmd hcmd hsome
      rw [heq] at hsome
      simp at hsome
  · constructor
    · intro e2 he2
      rw [hp] at he2
      cases he2
    · intro cmd hcmd hsome hnone
      have hdef : accountFor p client_id = Account.default := by
        simp [accountFor, hnone]
      have hacc : alLookup
          (p.process_transaction tx_id client_id amount kind).1.accounts
          client_id = some Account.default := by
        rw [heq]
        show alLookup (alInsert p.accounts client_id (accountFor p client_id))
          client_id = some Account.default
        rw [hdef, alLookup_alInsert_self]
      refine ⟨hacc, fun rs => ?_⟩
      obtain ⟨acc2, h2⟩ := processRecords_accounts_mono rs _ hacc
      exact ⟨acc2, h2, export_accounts_mem h2⟩
  · constructor
    · intro e2 he2
      rw [hp] at he2
      cases he2
    · intro cmd hcmd hsome
      rw [heq] at hsome
      simp at hsome
  · constructor
    · intro e2 he2
      rw [hp] at he2
      cases he2
    · intro cmd hcmd hsome hnone
      have hdef : accountFor p client_id = Account.default := by
        simp [accountFor, hnone]
      have hacc : alLookup
          (p.process_transaction tx_id client_id amount kind).1.accounts
          client_id = some Account.default := by
        rw [heq]
        show alLookup (alInsert p.accounts client_id (accountFor p client_id))
          client_id = some Account.default
        rw [hdef, alLookup_alInsert_self]
      refine ⟨hacc, fun rs => ?_⟩
      obtain ⟨acc2, h2⟩ := processRecords_accounts_mono rs _ hacc
      exact ⟨acc2, h2, export_accounts_mem h2⟩

/-- Witness for C10: a first-ever record for client 7 that is a withdrawal
fails `InsufficientFunds`, yet client 7 ends up in the account map with a
fresh default account. -/
theorem fresh_account_persists_on_account_error_witness :
    alLookup (InMemoryTransactionProcessor.default.process_transaction 1 7
      (some 5) .Withdrawal).1.accounts 7 = some Account.default :=
  ((fresh_account_persists_on_account_error
      InMemoryTransactionProcessor.default 1 7 (some 5) .Withdrawal).2
    (.CreateTx { tx_id := 1, action := .Withdraw, amount := 5 })
    rfl rfl rfl).1

end CuteLedger
